import Mathlib

/-!
Verification of the UI verification script `jules-scratch/verification/verify_ui.py`.

The script is a single linear sequence of Playwright browser operations:
launch a headless browser, open a page, navigate, upload a file, dispatch a
change event, click a button, wait for a completion text, take two
screenshots, and close the browser in a `finally` block.

We embed the script as a function from an environment (which records, for
each browser operation, whether it fails and with which error value, and
when the completion text becomes visible) to a run result: the ordered
trace of invoked browser operations and the error, if any, that propagates
out of the script.  Python `try/finally` semantics are modelled faithfully:
the `finally` close is invoked on every exit of the `try` body, an error
raised inside `finally` supersedes the body error, and operations placed
before the `try` (launch and new_page in the source) skip the `finally`
when they fail.
-/

namespace VerifyUi

/-- Error values carried by raised exceptions; the script never inspects
them, so an abstract carrier of strings suffices. -/
abbrev Err := String

/-- A browser operation invoked by the script, with its literal arguments
from the source.  The `screenshot` event records the `full_page` flag that
the Playwright call effectively uses. -/
inductive Event where
  | launch : Event
  | newPage : Event
  | goto : String → Event
  | setInputFiles : String → String → Event
  | dispatchOn : String → String → Event
  | clickRole : String → String → Event
  | waitVisibleText : String → Nat → Event
  | screenshot : Bool → String → Event
  | close : Event
deriving DecidableEq, Repr

/-- Fixed target URL from line 10 of the source. -/
def targetUrl : String := "http://localhost:5173"

/-- Fixed upload payload path from line 13 of the source. -/
def silentMp3Path : String := "jules-scratch/verification/silent.mp3"

/-- Fixed path of the first screenshot, line 25 of the source. -/
def resultsPath : String := "jules-scratch/verification/results.png"

/-- Fixed path of the second screenshot, line 31 of the source. -/
def rawResultsPath : String := "jules-scratch/verification/raw_results.png"

/-- Line 10: `await page.goto("http://localhost:5173")`. -/
def gotoEv : Event := Event.goto targetUrl

/-- Line 13: `set_input_files` on the `#file-input` locator. -/
def setFilesEv : Event := Event.setInputFiles "#file-input" silentMp3Path

/-- Line 16: `page.dispatch_event("#file-input", "change")`. -/
def dispatchEv : Event := Event.dispatchOn "#file-input" "change"

/-- Line 19: click the button with accessible name "Start Processing". -/
def clickStartEv : Event := Event.clickRole "button" "Start Processing"

/-- Line 22: wait for "Transcription Complete" to be visible, timeout
60000 milliseconds. -/
def waitEv : Event := Event.waitVisibleText "Transcription Complete" 60000

/-- Line 25: `page.screenshot(path=...)`.  The call passes no `full_page`
argument; the Playwright default is `full_page=False` (viewport only), so
the flag recorded here is `false`. -/
def shot1Ev : Event := Event.screenshot false resultsPath

/-- Line 28: click the button with accessible name "raw". -/
def clickRawEv : Event := Event.clickRole "button" "raw"

/-- Line 31: second `page.screenshot(path=...)`, again without
`full_page`, hence viewport only (`false`). -/
def shot2Ev : Event := Event.screenshot false rawResultsPath

/-- The environment of one run: for each browser operation, `none` means
the operation succeeds and `some e` means it raises the error `e`.
`visibleAt` gives the time in milliseconds, measured from the wait on
line 22, at which the "Transcription Complete" text becomes visible
(`none` if it never does); `timeoutRaised` is the error value of the
timeout exception the wait raises when the bound is exceeded. -/
structure Env where
  launchErr : Option Err
  newPageErr : Option Err
  gotoErr : Option Err
  setFilesErr : Option Err
  dispatchErr : Option Err
  clickStartErr : Option Err
  visibleAt : Option Nat
  timeoutRaised : Err
  screenshot1Err : Option Err
  clickRawErr : Option Err
  screenshot2Err : Option Err
  closeErr : Option Err
deriving DecidableEq, Repr

/-- The "Transcription Complete" text becomes visible within the 60000 ms
bound of line 22. -/
def visibleWithinTimeout (env : Env) : Prop :=
  ∃ t, env.visibleAt = some t ∧ t ≤ 60000

instance (env : Env) : Decidable (visibleWithinTimeout env) := by
  unfold visibleWithinTimeout
  cases h : env.visibleAt with
  | none => exact .isFalse (by simp [h])
  | some t =>
    cases Nat.decLe t 60000 with
    | isTrue ht => exact .isTrue ⟨t, by simp [h], ht⟩
    | isFalse ht => exact .isFalse (by simp [h]; omega)

/-- Outcome of the `expect(...).to_be_visible(timeout=60000)` wait on
line 22: succeeds when the text becomes visible within the bound,
otherwise raises the timeout error. -/
def waitRes (env : Env) : Option Err :=
  match env.visibleAt with
  | some t => if t ≤ 60000 then none else some env.timeoutRaised
  | none => some env.timeoutRaised

/-- The body of the `try` block, lines 10 to 31: each operation is invoked
in program order, and the first failing operation aborts the rest.  The
result is the trace of invoked operations together with the error raised
by the first failing one, if any. -/
def bodyRun (env : Env) : List Event × Option Err :=
  match env.gotoErr with
  | some e => ([gotoEv], some e)
  | none =>
  match env.setFilesErr with
  | some e => ([gotoEv, setFilesEv], some e)
  | none =>
  match env.dispatchErr with
  | some e => ([gotoEv, setFilesEv, dispatchEv], some e)
  | none =>
  match env.clickStartErr with
  | some e => ([gotoEv, setFilesEv, dispatchEv, clickStartEv], some e)
  | none =>
  match waitRes env with
  | some e => ([gotoEv, setFilesEv, dispatchEv, clickStartEv, waitEv], some e)
  | none =>
  match env.screenshot1Err with
  | some e => ([gotoEv, setFilesEv, dispatchEv, clickStartEv, waitEv, shot1Ev], some e)
  | none =>
  match env.clickRawErr with
  | some e =>
      ([gotoEv, setFilesEv, dispatchEv, clickStartEv, waitEv, shot1Ev, clickRawEv], some e)
  | none =>
  match env.screenshot2Err with
  | some e =>
      ([gotoEv, setFilesEv, dispatchEv, clickStartEv, waitEv, shot1Ev, clickRawEv, shot2Ev],
       some e)
  | none =>
      ([gotoEv, setFilesEv, dispatchEv, clickStartEv, waitEv, shot1Ev, clickRawEv, shot2Ev],
       none)

/-- Result of one run of the script: the ordered trace of invoked browser
operations, and the error that propagates to the process exit (`none` for
normal termination). -/
structure RunResult where
  trace : List Event
  outcome : Option Err
deriving DecidableEq, Repr

/-- One run of `main` (lines 4 to 34).  `launch` (line 6) and `new_page`
(line 7) precede the `try`, so a failure there skips the `finally` and the
browser close is never invoked.  Once the `try` body is entered, the
`finally` on lines 33 to 34 invokes `browser.close()` on every exit; per
Python semantics an error raised by `close` itself supersedes the body
error, otherwise the body error (if any) propagates unmodified. -/
def run (env : Env) : RunResult :=
  match env.launchErr with
  | some e => { trace := [Event.launch], outcome := some e }
  | none =>
  match env.newPageErr with
  | some e => { trace := [Event.launch, Event.newPage], outcome := some e }
  | none =>
    let body := bodyRun env
    { trace := Event.launch :: Event.newPage :: body.1 ++ [Event.close]
      outcome :=
        match env.closeErr with
        | some e => some e
        | none => body.2 }

/-- The script entry point as invoked by the operating system: the source
imports only `asyncio` and `playwright`, reads neither `sys.argv` nor
`os.environ`, and consumes no flags, so the run is a function of the
browser world alone and both parameters are ignored. -/
def runScript (_argv : List String) (_environ : List (String × String)) (env : Env) : RunResult :=
  run env

/-- The program order of all browser operations of a fully successful run. -/
def bodyOrder : List Event :=
  [gotoEv, setFilesEv, dispatchEv, clickStartEv, waitEv, shot1Ev, clickRawEv, shot2Ev]

/-- Full program order including launch, page creation and close. -/
def programOrder : List Event :=
  Event.launch :: Event.newPage :: bodyOrder ++ [Event.close]

/-- Number of times the browser close operation is invoked in a run. -/
def closeCount (r : RunResult) : Nat :=
  r.trace.count Event.close

/-- The screenshot paths among a list of operations, in order. -/
def shotPaths (l : List Event) : List String :=
  l.filterMap fun e =>
    match e with
    | Event.screenshot _ p => some p
    | _ => none

/-- The screenshot paths written during a run, in order of invocation. -/
def screenshotWrites (r : RunResult) : List String :=
  shotPaths r.trace

/-- The error raised by the first failing operation of the run, in program
order, ignoring the close of the `finally` block. -/
def firstErr (env : Env) : Option Err :=
  (env.launchErr).orElse fun _ =>
  (env.newPageErr).orElse fun _ =>
  (env.gotoErr).orElse fun _ =>
  (env.setFilesErr).orElse fun _ =>
  (env.dispatchErr).orElse fun _ =>
  (env.clickStartErr).orElse fun _ =>
  (waitRes env).orElse fun _ =>
  (env.screenshot1Err).orElse fun _ =>
  (env.clickRawErr).orElse fun _ =>
  env.screenshot2Err

/-- Every operation succeeds and the completion text appears in time. -/
def fullSuccess (env : Env) : Prop :=
  env.launchErr = none ∧ env.newPageErr = none ∧ env.gotoErr = none ∧
  env.setFilesErr = none ∧ env.dispatchErr = none ∧ env.clickStartErr = none ∧
  waitRes env = none ∧ env.screenshot1Err = none ∧ env.clickRawErr = none ∧
  env.screenshot2Err = none

instance (env : Env) : Decidable (fullSuccess env) := by
  unfold fullSuccess
  infer_instance

/-- A concrete environment in which every operation succeeds and the text
becomes visible after five seconds. -/
def okEnv : Env :=
  { launchErr := none
    newPageErr := none
    gotoErr := none
    setFilesErr := none
    dispatchErr := none
    clickStartErr := none
    visibleAt := some 5000
    timeoutRaised := "TimeoutError: waiting for get_by_text to be visible"
    screenshot1Err := none
    clickRawErr := none
    screenshot2Err := none
    closeErr := none }

/-- A concrete environment in which `new_page` (line 7) raises. -/
def newPageFailEnv : Env :=
  { okEnv with newPageErr := some "Error: browser has been closed" }

/-- A concrete environment in which the completion text never appears. -/
def timeoutEnv : Env :=
  { okEnv with visibleAt := none }

/-- A concrete environment in which navigation (line 10) fails. -/
def gotoFailEnv : Env :=
  { okEnv with gotoErr := some "net::ERR_CONNECTION_REFUSED" }

/-- A concrete environment in which the first screenshot (line 25) fails. -/
def shot1FailEnv : Env :=
  { okEnv with screenshot1Err := some "Error: ENOSPC" }

/-- A concrete fully successful environment in which the completion text
appears exactly at the 60000 ms bound. -/
def okEnvLate : Env :=
  { okEnv with visibleAt := some 60000 }

end VerifyUi

namespace VerifyUi

example : (run okEnv).trace = programOrder := by decide
example : (run okEnv).outcome = none := by decide
example : closeCount (run okEnv) = 1 := by decide
example : closeCount (run newPageFailEnv) = 0 := by decide
example : screenshotWrites (run timeoutEnv) = [] := by decide
example : (run timeoutEnv).outcome = some timeoutEnv.timeoutRaised := by decide
example : firstErr gotoFailEnv = some "net::ERR_CONNECTION_REFUSED" := by decide

/-- Once the `try` body is entered, the trace of a run is launch, page
creation, the `try` body trace, then the close of the `finally` block. -/
theorem run_trace (env : Env) (h1 : env.launchErr = none) (h2 : env.newPageErr = none) :
    (run env).trace = Event.launch :: Event.newPage :: (bodyRun env).1 ++ [Event.close] := by
  unfold run
  rw [h1, h2]

/-- Once the `try` body is entered and the close succeeds, the outcome of
the run is the outcome of the `try` body. -/
theorem run_outcome (env : Env) (h1 : env.launchErr = none) (h2 : env.newPageErr = none)
    (h3 : env.closeErr = none) : (run env).outcome = (bodyRun env).2 := by
  unfold run
  rw [h1, h2]
  simp only [h3]

/-- The `try` body trace is always an initial segment of the program order
of the body. -/
theorem bodyRun_trace_take (env : Env) : ∃ n, (bodyRun env).1 = bodyOrder.take n := by
  unfold bodyRun
  cases env.gotoErr with
  | some e => exact ⟨1, rfl⟩
  | none =>
  cases env.setFilesErr with
  | some e => exact ⟨2, rfl⟩
  | none =>
  cases env.dispatchErr with
  | some e => exact ⟨3, rfl⟩
  | none =>
  cases env.clickStartErr with
  | some e => exact ⟨4, rfl⟩
  | none =>
  cases waitRes env with
  | some e => exact ⟨5, rfl⟩
  | none =>
  cases env.screenshot1Err with
  | some e => exact ⟨6, rfl⟩
  | none =>
  cases env.clickRawErr with
  | some e => exact ⟨7, rfl⟩
  | none =>
  cases env.screenshot2Err with
  | some e => exact ⟨8, rfl⟩
  | none => exact ⟨8, rfl⟩

/-- On a fully successful run the `try` body runs all eight operations in
order and raises nothing. -/
theorem bodyRun_full (env : Env) (hs : fullSuccess env) :
    (bodyRun env).1 = bodyOrder ∧ (bodyRun env).2 = none := by
  obtain ⟨-, -, h3, h4, h5, h6, h7, h8, h9, h10⟩ := hs
  unfold bodyRun
  rw [h3, h4, h5, h6, h7, h8, h9, h10]
  exact ⟨rfl, rfl⟩

/-- The screenshot writes of a run that entered the `try` body are the
screenshot writes of the body trace. -/
theorem screenshotWrites_run (env : Env) (h1 : env.launchErr = none)
    (h2 : env.newPageErr = none) :
    screenshotWrites (run env) = shotPaths (bodyRun env).1 := by
  unfold screenshotWrites shotPaths
  rw [run_trace env h1 h2]
  simp [List.filterMap_cons, List.filterMap_append]

/-- On a fully successful run the two screenshots are written in order. -/
theorem screenshotWrites_full (env : Env) (hs : fullSuccess env) :
    screenshotWrites (run env) = [resultsPath, rawResultsPath] := by
  rw [screenshotWrites_run env hs.1 hs.2.1, (bodyRun_full env hs).1]
  decide

end VerifyUi

namespace VerifyUi

/-- C1: the original claim states that in every run the browser close is
invoked exactly once, whether the run finishes normally or any step
raises.  This is false on the code: `browser.new_page()` on line 7 runs
before the `try`, so when it raises, the `finally` never executes and the
close is invoked zero times.  This counterexample exhibits such a run. -/
theorem C1_counterexample : ¬ closeCount (run newPageFailEnv) = 1 := by
  decide

/-- C1 (amended): provided the browser launch and the page creation
succeed, the browser close operation is invoked exactly once before the
run ends, whether the `try` body finishes normally or any of its steps
raises an exception. -/
theorem C1_close_exactly_once (env : Env) (h1 : env.launchErr = none)
    (h2 : env.newPageErr = none) : closeCount (run env) = 1 := by
  unfold closeCount
  rw [run_trace env h1 h2]
  obtain ⟨n, hn⟩ := bodyRun_trace_take env
  rw [hn]
  have hcl : Event.close ∉ bodyOrder.take n := by
    intro hmem
    have := List.take_subset n bodyOrder hmem
    revert this
    decide
  have h0 : Event.close ∉ Event.launch :: Event.newPage :: bodyOrder.take n := by
    simp only [List.mem_cons]
    rintro (h | h | h)
    · exact Event.noConfusion h
    · exact Event.noConfusion h
    · exact hcl h
  rw [List.count_append, List.count_eq_zero.mpr h0]
  decide

/-- C1 witness: a fully successful concrete run closes the browser exactly
once. -/
theorem C1_witness : closeCount (run okEnv) = 1 :=
  C1_close_exactly_once okEnv rfl rfl

/-- C2: the script performs its browser operations in the fixed program
order navigate, attach file, dispatch change, click Start Processing, wait
for Transcription Complete, first screenshot, click raw, second
screenshot; the trace taken by any run that enters the `try` body is an
initial segment of this order (no operation runs out of order, and each
operation is invoked only after all earlier ones completed), and a fully
successful run performs exactly the whole sequence. -/
theorem C2_program_order (env : Env) (h1 : env.launchErr = none)
    (h2 : env.newPageErr = none) :
    (∃ n, (run env).trace =
      Event.launch :: Event.newPage :: bodyOrder.take n ++ [Event.close]) ∧
    (fullSuccess env → (run env).trace = programOrder) := by
  constructor
  · obtain ⟨n, hn⟩ := bodyRun_trace_take env
    exact ⟨n, by rw [run_trace env h1 h2, hn]⟩
  · intro hs
    rw [run_trace env h1 h2, (bodyRun_full env hs).1]
    rfl

/-- C2 witness: the fully successful concrete run performs exactly the
whole program order. -/
theorem C2_witness : (run okEnv).trace = programOrder :=
  (C2_program_order okEnv rfl rfl).2 (by decide)

/-- C3: when the Transcription Complete text does not become visible
within the 60000 ms bound after the Start Processing click (all steps up
to the click having succeeded, and the close cleanup succeeding), the run
fails with the timeout error and no screenshot is written. -/
theorem C3_timeout_no_screenshots (env : Env)
    (h1 : env.launchErr = none) (h2 : env.newPageErr = none)
    (h3 : env.gotoErr = none) (h4 : env.setFilesErr = none)
    (h5 : env.dispatchErr = none) (h6 : env.clickStartErr = none)
    (h7 : ¬ visibleWithinTimeout env) (h8 : env.closeErr = none) :
    (run env).outcome = some env.timeoutRaised ∧
    screenshotWrites (run env) = [] := by
  have hw : waitRes env = some env.timeoutRaised := by
    unfold waitRes
    cases hv : env.visibleAt with
    | none => rfl
    | some t =>
      show (if t ≤ 60000 then none else some env.timeoutRaised) = some env.timeoutRaised
      rw [if_neg]
      intro hle
      exact h7 ⟨t, hv, hle⟩
  have hb : bodyRun env =
      ([gotoEv, setFilesEv, dispatchEv, clickStartEv, waitEv], some env.timeoutRaised) := by
    unfold bodyRun
    rw [h3, h4, h5, h6, hw]
  constructor
  · rw [run_outcome env h1 h2 h8, hb]
  · rw [screenshotWrites_run env h1 h2, hb]
    show shotPaths [gotoEv, setFilesEv, dispatchEv, clickStartEv, waitEv] = []
    rfl

/-- C3 witness: in the concrete run where the text never appears, the
timeout error propagates and no screenshot is written. -/
theorem C3_witness :
    (run timeoutEnv).outcome = some timeoutEnv.timeoutRaised ∧
    screenshotWrites (run timeoutEnv) = [] :=
  C3_timeout_no_screenshots timeoutEnv rfl rfl rfl rfl rfl rfl
    (by simp [visibleWithinTimeout, timeoutEnv, okEnv]) rfl

/-- C4: the original claim states that both screenshot operations capture
a full-page screenshot.  This is false on the code: both
`page.screenshot(path=...)` calls pass no `full_page` argument, and the
Playwright default is `full_page=False`, a viewport-only capture.  In the
fully successful concrete run, the first screenshot operation is a
viewport capture and no full-page capture of that path occurs. -/
theorem C4_counterexample :
    Event.screenshot false resultsPath ∈ (run okEnv).trace ∧
    Event.screenshot true resultsPath ∉ (run okEnv).trace := by
  decide

/-- C4 (amended): both screenshot operations capture a viewport-only (not
full-page) screenshot, each to one of the two fixed paths. -/
theorem C4_screenshots_viewport (env : Env) (b : Bool) (p : String)
    (hmem : Event.screenshot b p ∈ (run env).trace) :
    b = false ∧ (p = resultsPath ∨ p = rawResultsPath) := by
  cases h1 : env.launchErr with
  | some e =>
    have ht : (run env).trace = [Event.launch] := by
      unfold run
      rw [h1]
    rw [ht] at hmem
    simp only [List.mem_singleton] at hmem
    exact Event.noConfusion hmem
  | none =>
  cases h2 : env.newPageErr with
  | some e =>
    have ht : (run env).trace = [Event.launch, Event.newPage] := by
      unfold run
      rw [h1, h2]
    rw [ht] at hmem
    simp only [List.mem_cons, List.not_mem_nil, or_false] at hmem
    rcases hmem with h | h
    · exact Event.noConfusion h
    · exact Event.noConfusion h
  | none =>
  rw [run_trace env h1 h2] at hmem
  obtain ⟨n, hn⟩ := bodyRun_trace_take env
  rw [hn] at hmem
  have hb : Event.screenshot b p ∈ bodyOrder := by
    simp only [List.cons_append, List.mem_cons, List.mem_append, List.not_mem_nil,
      or_false] at hmem
    rcases hmem with h | h | h | h
    · exact Event.noConfusion h
    · exact Event.noConfusion h
    · exact List.take_subset n bodyOrder h
    · exact Event.noConfusion h
  unfold bodyOrder at hb
  simp only [List.mem_cons, List.mem_singleton, List.not_mem_nil, or_false] at hb
  rcases hb with h | h | h | h | h | h | h | h
  · exact Event.noConfusion h
  · exact Event.noConfusion h
  · exact Event.noConfusion h
  · exact Event.noConfusion h
  · exact Event.noConfusion h
  · injection h with hb hp
    exact ⟨hb, Or.inl hp⟩
  · exact Event.noConfusion h
  · injection h with hb hp
    exact ⟨hb, Or.inr hp⟩

/-- C4 witness: the amended claim at the concrete fully successful run and
the first screenshot operation. -/
theorem C4_witness :
    false = false ∧ (resultsPath = resultsPath ∨ resultsPath = rawResultsPath) :=
  C4_screenshots_viewport okEnv false resultsPath (by decide)

/-- C5: when navigation fails (and launch, page creation and close
succeed), the navigation error propagates, the file-upload operation is
never invoked, and no screenshot is written. -/
theorem C5_nav_failure (env : Env) (e : Err)
    (h1 : env.launchErr = none) (h2 : env.newPageErr = none)
    (h3 : env.gotoErr = some e) (h8 : env.closeErr = none) :
    (run env).outcome = some e ∧ setFilesEv ∉ (run env).trace ∧
    screenshotWrites (run env) = [] := by
  have hb : bodyRun env = ([gotoEv], some e) := by
    unfold bodyRun
    rw [h3]
  refine ⟨?_, ?_, ?_⟩
  · rw [run_outcome env h1 h2 h8, hb]
  · rw [run_trace env h1 h2, hb]
    show setFilesEv ∉ Event.launch :: Event.newPage :: [gotoEv] ++ [Event.close]
    decide
  · rw [screenshotWrites_run env h1 h2, hb]
    show shotPaths [gotoEv] = []
    rfl

/-- C5 witness: the concrete run with an unreachable target propagates the
connection error, skips the upload and writes nothing. -/
theorem C5_witness :
    (run gotoFailEnv).outcome = some "net::ERR_CONNECTION_REFUSED" ∧
    setFilesEv ∉ (run gotoFailEnv).trace ∧
    screenshotWrites (run gotoFailEnv) = [] :=
  C5_nav_failure gotoFailEnv "net::ERR_CONNECTION_REFUSED" rfl rfl rfl rfl

/-- C6: no error is caught or translated: whenever the close cleanup
itself succeeds, the error that propagates out of the run is exactly the
error raised by the first failing operation, unmodified (and `none` when
nothing fails). -/
theorem C6_error_propagation (env : Env) (h : env.closeErr = none) :
    (run env).outcome = firstErr env := by
  unfold run bodyRun firstErr
  simp only [h]
  cases env.launchErr with
  | some e => rfl
  | none =>
  cases env.newPageErr with
  | some e => rfl
  | none =>
  cases env.gotoErr with
  | some e => rfl
  | none =>
  cases env.setFilesErr with
  | some e => rfl
  | none =>
  cases env.dispatchErr with
  | some e => rfl
  | none =>
  cases env.clickStartErr with
  | some e => rfl
  | none =>
  cases waitRes env with
  | some e => rfl
  | none =>
  cases env.screenshot1Err with
  | some e => rfl
  | none =>
  cases env.clickRawErr with
  | some e => rfl
  | none =>
  cases env.screenshot2Err with
  | some e => rfl
  | none => rfl

/-- C6 witness: in the concrete run where the first screenshot raises a
disk-full error, exactly that error propagates to the process exit. -/
theorem C6_witness : (run shot1FailEnv).outcome = some "Error: ENOSPC" :=
  (C6_error_propagation shot1FailEnv rfl).trans (by decide)

/-- C7: a fully successful run navigates to the fixed target URL, uploads
the fixed silent.mp3 file, and writes exactly the two screenshot files,
results.png first and raw_results.png second. -/
theorem C7_happy_path (env : Env) (hs : fullSuccess env) :
    screenshotWrites (run env) = [resultsPath, rawResultsPath] ∧
    gotoEv ∈ (run env).trace ∧ setFilesEv ∈ (run env).trace := by
  refine ⟨screenshotWrites_full env hs, ?_, ?_⟩ <;>
    rw [run_trace env hs.1 hs.2.1, (bodyRun_full env hs).1] <;> decide

/-- C7 witness: the amended-free claim at the concrete fully successful
run. -/
theorem C7_witness :
    screenshotWrites (run okEnv) = [resultsPath, rawResultsPath] ∧
    gotoEv ∈ (run okEnv).trace ∧ setFilesEv ∈ (run okEnv).trace :=
  C7_happy_path okEnv (by decide)

/-- C8: any two fully successful runs write the same two fixed output
paths, so a second run overwrites the files of the first; no
run-dependent path component exists. -/
theorem C8_fixed_output_paths (env1 env2 : Env) (hs1 : fullSuccess env1)
    (hs2 : fullSuccess env2) :
    screenshotWrites (run env1) = screenshotWrites (run env2) ∧
    screenshotWrites (run env1) = [resultsPath, rawResultsPath] := by
  have w1 := screenshotWrites_full env1 hs1
  have w2 := screenshotWrites_full env2 hs2
  exact ⟨w1.trans w2.symm, w1⟩

/-- C8 witness: two distinct concrete fully successful runs write the same
two fixed paths. -/
theorem C8_witness :
    screenshotWrites (run okEnv) = screenshotWrites (run okEnvLate) ∧
    screenshotWrites (run okEnv) = [resultsPath, rawResultsPath] :=
  C8_fixed_output_paths okEnv okEnvLate (by decide) (by decide)

/-- C9: the script consumes no command-line arguments and no environment
variables, so two invocations differing only in argv or environment issue
the identical run result (same trace of operations, same paths, same
outcome). -/
theorem C9_argv_environ_independent (a1 a2 : List String)
    (e1 e2 : List (String × String)) (w : Env) :
    runScript a1 e1 w = runScript a2 e2 w := rfl

/-- C10: in every run, the second screenshot path raw_results.png is only
ever written after the first screenshot path results.png: the possible
write sequences are empty, results.png alone, or results.png followed by
raw_results.png. -/
theorem C10_raw_requires_results (env : Env) :
    screenshotWrites (run env) = [] ∨
    screenshotWrites (run env) = [resultsPath] ∨
    screenshotWrites (run env) = [resultsPath, rawResultsPath] := by
  cases h1 : env.launchErr with
  | some e =>
    left
    have ht : (run env).trace = [Event.launch] := by
      unfold run
      rw [h1]
    unfold screenshotWrites
    rw [ht]
    rfl
  | none =>
  cases h2 : env.newPageErr with
  | some e =>
    left
    have ht : (run env).trace = [Event.launch, Event.newPage] := by
      unfold run
      rw [h1, h2]
    unfold screenshotWrites
    rw [ht]
    rfl
  | none =>
  rw [screenshotWrites_run env h1 h2]
  obtain ⟨n, hn⟩ := bodyRun_trace_take env
  rw [hn]
  match n with
  | 0 => left; decide
  | 1 => left; decide
  | 2 => left; decide
  | 3 => left; decide
  | 4 => left; decide
  | 5 => left; decide
  | 6 => right; left; decide
  | 7 => right; left; decide
  | Nat.succ (Nat.succ (Nat.succ (Nat.succ (Nat.succ (Nat.succ (Nat.succ (Nat.succ m))))))) =>
    right; right
    rw [List.take_of_length_le (by simp [bodyOrder])]
    decide

end VerifyUi
